import Mathlib

/-!
Shallow embedding of the ceph-api command-construction and validation layer.

Source files embedded:
  * src/ceph_api/validator.py            — the shared `validator` function
  * src/ceph_api/firefly/ceph_command.py — firefly-generation wrappers
  * src/ceph_api/hammer/ceph_command.py  — hammer-generation wrappers
  * src/ceph_api/infernalis/ceph_command.py — infernalis-generation wrappers

Python values that flow through the wrappers are modelled by `PyVal`
(ints, floats as rationals, strings, lists); Python `raise`/`assert`
control flow is modelled with `Except`.
-/

namespace CephApi

/-- The dynamic values the wrappers handle: integers, floats (modelled as
rationals, since only order comparisons against small decimal bounds occur),
strings and lists. -/
inductive PyVal where
  | VInt : Int → PyVal
  | VFloat : Rat → PyVal
  | VStr : String → PyVal
  | VList : List PyVal → PyVal

mutual

/-- Decidable equality of `PyVal` (the nested list constructor prevents
automatic derivation). -/
def PyVal.decEq : (a b : PyVal) → Decidable (a = b)
  | .VInt a, .VInt b =>
    if h : a = b then .isTrue (by rw [h])
    else .isFalse (fun hh => by cases hh; exact h rfl)
  | .VFloat a, .VFloat b =>
    if h : a = b then .isTrue (by rw [h])
    else .isFalse (fun hh => by cases hh; exact h rfl)
  | .VStr a, .VStr b =>
    if h : a = b then .isTrue (by rw [h])
    else .isFalse (fun hh => by cases hh; exact h rfl)
  | .VList a, .VList b =>
    match PyVal.decEqList a b with
    | .isTrue h => .isTrue (by rw [h])
    | .isFalse h => .isFalse (fun hh => by cases hh; exact h rfl)
  | .VInt _, .VFloat _ => .isFalse (fun h => by cases h)
  | .VInt _, .VStr _ => .isFalse (fun h => by cases h)
  | .VInt _, .VList _ => .isFalse (fun h => by cases h)
  | .VFloat _, .VInt _ => .isFalse (fun h => by cases h)
  | .VFloat _, .VStr _ => .isFalse (fun h => by cases h)
  | .VFloat _, .VList _ => .isFalse (fun h => by cases h)
  | .VStr _, .VInt _ => .isFalse (fun h => by cases h)
  | .VStr _, .VFloat _ => .isFalse (fun h => by cases h)
  | .VStr _, .VList _ => .isFalse (fun h => by cases h)
  | .VList _, .VInt _ => .isFalse (fun h => by cases h)
  | .VList _, .VFloat _ => .isFalse (fun h => by cases h)
  | .VList _, .VStr _ => .isFalse (fun h => by cases h)

/-- Decidable equality of lists of `PyVal`. -/
def PyVal.decEqList : (a b : List PyVal) → Decidable (a = b)
  | [], [] => .isTrue rfl
  | [], _ :: _ => .isFalse (fun h => by cases h)
  | _ :: _, [] => .isFalse (fun h => by cases h)
  | x :: xs, y :: ys =>
    match PyVal.decEq x y, PyVal.decEqList xs ys with
    | .isTrue h1, .isTrue h2 => .isTrue (by rw [h1, h2])
    | .isFalse h1, _ => .isFalse (fun hh => by injection hh with e1 e2; exact h1 e1)
    | .isTrue _, .isFalse h2 => .isFalse (fun hh => by injection hh with e1 e2; exact h2 e2)

end

instance : DecidableEq PyVal := PyVal.decEq

/-- The `valid_type` arguments that call sites pass to `validator`:
`int`, `float`, `six.string_types` and `list`. -/
inductive PyType where
  | intT | floatT | strT | listT
deriving DecidableEq

/-- Python `isinstance(value, valid_type)` for the types above.
(No call site passes a bool, so the bool-is-int corner is irrelevant.) -/
def isinstance : PyVal → PyType → Bool
  | .VInt _, .intT => true
  | .VFloat _, .floatT => true
  | .VStr _, .strT => true
  | .VList _, .listT => true
  | _, _ => false

/-- Python `str()` on the values the embedded call sites format into
error messages (ints and strings; list/float rendering is simplified and
no theorem below pins a message containing a list or float via this
function's list branch). -/
def pyStr : PyVal → String
  | .VInt n => toString n
  | .VFloat q => toString q
  | .VStr s => s
  | .VList _ => "[...]"

/-- Rendering of the type object in `"{} is not a {}".format(value, valid_type)`. -/
def typeName : PyType → String
  | .intT => "<class int>"
  | .floatT => "<class float>"
  | .strT => "<class str>"
  | .listT => "<class list>"

/-- The exceptions raised inside the validation phase:
`AssertionError` and `ValueError` from `validator.py` and from the bare
`assert` statements in the wrappers; `TypeError` from an unsupported
ordered comparison; `ArgumentValid`-style errors from the
`ceph_argparse` validators used by the hammer generation. -/
inductive PyErr where
  | assertionError : String → PyErr
  | valueError : String → PyErr
  | typeError : String → PyErr
  | argumentValid : String → PyErr
deriving DecidableEq

/-- Numeric view used for Python ordered comparison: ints and floats
compare numerically; nothing else supports `>=`/`<=` at the embedded
call sites (Python 3 raises `TypeError` on mixed comparisons, and no
call site compares two strings or two lists in the range branch). -/
def toRat? : PyVal → Option Rat
  | .VInt n => some (n : Rat)
  | .VFloat q => some q
  | _ => none

/-- Python `a >= b` restricted as described at `toRat?`. -/
def pyGe (a b : PyVal) : Except PyErr Bool :=
  match toRat? a, toRat? b with
  | some x, some y => .ok (decide (y ≤ x))
  | _, _ => .error (.typeError "unorderable types")

/-- Python `a <= b` restricted as described at `toRat?`. -/
def pyLe (a b : PyVal) : Except PyErr Bool :=
  match toRat? a, toRat? b with
  | some x, some y => .ok (decide (x ≤ y))
  | _, _ => .error (.typeError "unorderable types")

/-- src/ceph_api/validator.py, `validator(value, valid_type, valid_range=None)`:
assert `isinstance(value, valid_type)`; if a range is given it must be a
list; when `valid_type is six.string_types` the value must be a member of
the list; otherwise the list must have exactly two entries `[min, max]`
(else `ValueError`) and the value must satisfy `min <= value <= max`. -/
def validator (value : PyVal) (valid_type : PyType)
    (valid_range : Option PyVal := none) : Except PyErr Unit :=
  if isinstance value valid_type then
    match valid_range with
    | none => .ok ()
    | some vr =>
      match vr with
      | .VList range =>
        if valid_type = .strT then
          if range.contains value then .ok ()
          else .error (.assertionError
            (pyStr value ++ " is not in the list " ++ pyStr vr))
        else
          match range with
          | [lo, hi] =>
            match pyGe value lo with
            | .error e => .error e
            | .ok geOk =>
              if geOk then
                match pyLe value hi with
                | .error e => .error e
                | .ok leOk =>
                  if leOk then .ok ()
                  else .error (.assertionError
                    (pyStr value ++ " is greater than maximum allowed value of "
                      ++ pyStr hi))
              else .error (.assertionError
                (pyStr value ++ " is less than minimum allowed value of "
                  ++ pyStr lo))
          | _ => .error (.valueError
              ("Invalid valid_range list of " ++ pyStr vr ++ " for "
                ++ pyStr value ++ ".  List must be [min,max]"))
      | _ => .error (.assertionError
          ("valid_range must be a list, was given " ++ pyStr vr))
  else .error (.assertionError
    (pyStr value ++ " is not a " ++ typeName valid_type))

/-- The value of `value` after a call to `validator`: the source only
reads `value` (isinstance tests, membership tests and comparisons) and
never assigns to it or calls a mutating method on it, so the value the
caller holds afterwards is the value it passed in. -/
def validator_post (value : PyVal) (_valid_type : PyType)
    (_valid_range : Option PyVal) : PyVal := value

deriving instance DecidableEq for Except

/-! ## Command objects -/

/-- A command object: the Python dict `{'prefix': ..., field: value, ...}`
as an insertion-ordered association list (keys are unique at every
embedded call site). -/
abbrev Cmd := List (String × PyVal)

/-- Dict lookup `cmd[k]` returning `none` when the key is absent. -/
def Cmd.get (c : Cmd) (k : String) : Option PyVal :=
  (List.find? (fun p => p.1 = k) c).map (fun p => p.2)

/-! ## ceph_argparse validators (hammer generation)

`ceph_argparse` is an external library (imported by
src/ceph_api/hammer/ceph_command.py, not part of this repository), so
its validators are modelled from the spec. -/

/-- `'0'..'9'` digit test on a character (by code point, to stay
kernel-reducible). -/
def isDigitChar (c : Char) : Bool := 48 ≤ c.toNat && c.toNat ≤ 57

/-- Decimal digits to a natural number; `none` on an empty or non-digit
input. -/
def natOfChars : List Char → Nat → Option Nat
  | [], acc => some acc
  | c :: rest, acc =>
    if isDigitChar c then natOfChars rest (acc * 10 + (c.toNat - 48))
    else none

/-- Parse a (possibly `-`-signed) decimal integer token. -/
def intOfChars : List Char → Option Int
  | [] => none
  | c :: rest =>
    if c = Char.ofNat 45 then
      match rest with
      | [] => none
      | _ => (natOfChars rest 0).map (fun n => -(n : Int))
    else (natOfChars (c :: rest) 0).map (fun n => (n : Int))

/-- Split a character list at `'|'` separators (Python `range.split('|')`). -/
def splitPipe : List Char → List Char → List (List Char)
  | [], cur => [cur.reverse]
  | c :: rest, cur =>
    if c = Char.ofNat 124 then cur.reverse :: splitPipe rest []
    else splitPipe rest (c :: cur)

/-- Modelled from the spec: `ceph_argparse.CephInt(range=...)` is the
spec's BoundedInt{min?, max?} — the value must be an integer; if a bound
is present the value must respect it, an absent bound imposes no
constraint on that side. -/
structure CephInt where
  min : Option Int
  max : Option Int

/-- Modelled from the spec: the range strings the hammer call sites pass
(`''` = unconstrained, `'0'` = min only, `'0|1'` = `[min, max]`),
mirroring `ceph_argparse`'s `range.split('|')`. -/
def CephInt.ofRange (range : String) : CephInt :=
  if range = "" then ⟨none, none⟩
  else
    match (splitPipe range.data []).map intOfChars with
    | [some lo] => ⟨some lo, none⟩
    | [some lo, some hi] => ⟨some lo, some hi⟩
    | _ => ⟨none, none⟩

/-- Modelled from the spec: BoundedInt validation — reject a
non-integral value, reject below a declared min, reject above a declared
max (an absent bound is unconstrained on that side). -/
def CephInt.valid (c : CephInt) (v : PyVal) : Except PyErr Unit :=
  match v with
  | .VInt n =>
    match c.min with
    | some lo =>
      if n < lo then
        .error (.argumentValid (toString n ++ " is less than minimum allowed value"))
      else
        match c.max with
        | some hi =>
          if hi < n then
            .error (.argumentValid (toString n ++ " is greater than maximum allowed value"))
          else .ok ()
        | none => .ok ()
    | none =>
      match c.max with
      | some hi =>
        if hi < n then
          .error (.argumentValid (toString n ++ " is greater than maximum allowed value"))
        else .ok ()
      | none => .ok ()
  | _ => .error (.argumentValid (pyStr v ++ " is not integral"))

/-- Modelled from the spec: `ceph_argparse.CephFloat(range=...)` is the
spec's BoundedFloat{min?, max?}; an integer is also accepted as a float
value. -/
structure CephFloat where
  min : Option Rat
  max : Option Rat

/-- Modelled from the spec: range-string parsing for `CephFloat`
(the hammer call sites only pass integer-literal bounds). -/
def CephFloat.ofRange (range : String) : CephFloat :=
  if range = "" then ⟨none, none⟩
  else
    match (splitPipe range.data []).map intOfChars with
    | [some lo] => ⟨some (lo : Rat), none⟩
    | [some lo, some hi] => ⟨some (lo : Rat), some (hi : Rat)⟩
    | _ => ⟨none, none⟩

/-- Modelled from the spec: BoundedFloat validation. -/
def CephFloat.valid (c : CephFloat) (v : PyVal) : Except PyErr Unit :=
  match toRat? v with
  | some q =>
    match c.min with
    | some lo =>
      if q < lo then
        .error (.argumentValid (pyStr v ++ " is less than minimum allowed value"))
      else
        match c.max with
        | some hi =>
          if hi < q then
            .error (.argumentValid (pyStr v ++ " is greater than maximum allowed value"))
          else .ok ()
        | none => .ok ()
    | none =>
      match c.max with
      | some hi =>
        if hi < q then
          .error (.argumentValid (pyStr v ++ " is greater than maximum allowed value"))
        else .ok ()
      | none => .ok ()
  | none => .error (.argumentValid (pyStr v ++ " is not a float"))

/-- Modelled from the spec: `ceph_argparse.CephChoices(strings=...)` is
the spec's ChoiceSet{allowed} — the value must be one of the allowed
literal strings. -/
def CephChoices.valid (allowed : List String) (v : PyVal) : Except PyErr Unit :=
  match v with
  | .VStr s =>
    if allowed.contains s then .ok ()
    else .error (.argumentValid (s ++ " not in " ++ String.intercalate "|" allowed))
  | _ => .error (.argumentValid (pyStr v ++ " not in " ++ String.intercalate "|" allowed))

/-- The hammer wrappers validate a repeated ("many") choice field with a
loop `for s in values: validator.valid(s)`: the first failing element
raises; an empty sequence makes the loop body never run. -/
def validateEach (allowed : List String) : List PyVal → Except PyErr Unit
  | [] => .ok ()
  | v :: rest =>
    match CephChoices.valid allowed v with
    | .error e => .error e
    | .ok _ => validateEach allowed rest

/-! ## Wrapper build phases

Each wrapper is split into its build phase (argument validation and
command-object assembly — everything before `run_ceph_command`) and the
shared dispatch.  A raised assertion or exception during the build phase
is an `Except.error`. -/

/-- firefly `PlacementGroupCommand.pg_stat`: no arguments,
`cmd = {'prefix': 'pg stat'}`. -/
def pg_stat_cmd : Cmd := [("prefix", .VStr "pg stat")]

/-- The `valid_range` list of firefly `OsdCommand.osd_set`. -/
def osdSetFireflyRange : List PyVal :=
  ["pause", "noup", "nodown", "noout", "noin", "nobackfill", "norecover",
   "noscrub", "nodeep-scrub", "notieragent"].map PyVal.VStr

/-- firefly `OsdCommand.osd_set`: `ceph.validator(value=key,
valid_type=list, valid_range=[...10 strings...])` (the trailing
`, str(key) + " is not a list"` makes the line a tuple expression, but
the validator call still executes and raises), then
`cmd = {'prefix': 'osd set', 'key': key}`. -/
def osd_set_firefly (key : PyVal) : Except PyErr Cmd :=
  match validator key .listT (some (.VList osdSetFireflyRange)) with
  | .error e => .error e
  | .ok _ => .ok [("prefix", .VStr "osd set"), ("key", key)]

/-- The `valid_range` list of infernalis `OsdCommand.osd_set`. -/
def osdSetInfernalisRange : List PyVal :=
  ["full", "pause", "noup", "nodown", "noout", "noin", "nobackfill",
   "norebalance", "norecover", "noscrub", "nodeep-scrub", "notieragent",
   "sortbitwise"].map PyVal.VStr

/-- infernalis `OsdCommand.osd_set`: same shape as the firefly one with a
13-entry `valid_range`. -/
def osd_set_infernalis (key : PyVal) : Except PyErr Cmd :=
  match validator key .listT (some (.VList osdSetInfernalisRange)) with
  | .error e => .error e
  | .ok _ => .ok [("prefix", .VStr "osd set"), ("key", key)]

/-- The allowed strings of hammer `OsdCommand.osd_set`. -/
def osdSetHammerAllowed : List String :=
  ["full", "pause", "noup", "nodown", "noout", "noin", "nobackfill",
   "norebalance", "norecover", "noscrub", "nodeep-scrub", "notieragent"]

/-- hammer `OsdCommand.osd_set`: `key_validator = CephChoices(...)`, then
`for s in key: key_validator.valid(s)`, then
`cmd = {'prefix': 'osd set', 'key': key}`. -/
def osd_set_hammer (key : List PyVal) : Except PyErr Cmd :=
  match validateEach osdSetHammerAllowed key with
  | .error e => .error e
  | .ok _ => .ok [("prefix", .VStr "osd set"), ("key", .VList key)]

/-- firefly `OsdCommand.osd_reweight`: `assert isinstance(id,
six.string_types), str(id) + " is not a int"` then the same for `weight`
with `" is not a float"` (the source checks both arguments against
`six.string_types` even though its docstring says int/float), then
`cmd = {'prefix': 'osd reweight', 'id': id, 'weight': weight}`. -/
def osd_reweight_firefly (id weight : PyVal) : Except PyErr Cmd :=
  if isinstance id .strT then
    if isinstance weight .strT then
      .ok [("prefix", .VStr "osd reweight"), ("id", id), ("weight", weight)]
    else .error (.assertionError (pyStr weight ++ " is not a float"))
  else .error (.assertionError (pyStr id ++ " is not a int"))

/-- hammer `OsdCommand.osd_reweight`:
`CephInt(range='0').valid(id)`, then `CephFloat(range='0|1').valid(weight)`,
then `cmd = {'prefix': 'osd reweight', 'id': id, 'weight': weight}`. -/
def osd_reweight_hammer (id weight : PyVal) : Except PyErr Cmd :=
  match (CephInt.ofRange "0").valid id with
  | .error e => .error e
  | .ok _ =>
    match (CephFloat.ofRange "0|1").valid weight with
    | .error e => .error e
    | .ok _ =>
      .ok [("prefix", .VStr "osd reweight"), ("id", id), ("weight", weight)]

/-- firefly `AuthCommand.auth_caps`: `assert isinstance(caps,
six.string_types), str(caps) + " is not a String"`, then the same for
`entity`, then `cmd = {'prefix': 'auth caps', 'caps': caps,
'entity': entity}`. -/
def auth_caps (caps entity : PyVal) : Except PyErr Cmd :=
  if isinstance caps .strT then
    if isinstance entity .strT then
      .ok [("prefix", .VStr "auth caps"), ("caps", caps), ("entity", entity)]
    else .error (.assertionError (pyStr entity ++ " is not a String"))
  else .error (.assertionError (pyStr caps ++ " is not a String"))

/-- firefly `ConfigKeyCommand.config_key_put(key, val=None)`: assert
`key` is a string, start `cmd = {'prefix': 'config-key put', 'key': key}`,
and only if `val is not None` assert it is a string and set
`cmd['val'] = val`. -/
def config_key_put (key : PyVal) (val : Option PyVal) : Except PyErr Cmd :=
  if isinstance key .strT then
    match val with
    | none => .ok [("prefix", .VStr "config-key put"), ("key", key)]
    | some v =>
      if isinstance v .strT then
        .ok [("prefix", .VStr "config-key put"), ("key", key), ("val", v)]
      else .error (.assertionError (pyStr v ++ " is not a String"))
  else .error (.assertionError (pyStr key ++ " is not a String"))

/-- The `valid_range` list of firefly `PlacementGroupCommand.pg_dump`. -/
def pgDumpFireflyRange : List PyVal :=
  ["all", "summary", "sum", "delta", "pools", "osds", "pgs",
   "pgs_brief"].map PyVal.VStr

/-- firefly `PlacementGroupCommand.pg_dump(dumpcontents=None)`: start
`cmd = {'prefix': 'pg dump'}`; only if `dumpcontents is not None` run
`ceph.validator(value=dumpcontents, valid_type=list, valid_range=[...])`
and set `cmd['dumpcontents'] = dumpcontents`. -/
def pg_dump (dumpcontents : Option PyVal) : Except PyErr Cmd :=
  match dumpcontents with
  | none => .ok [("prefix", .VStr "pg dump")]
  | some d =>
    match validator d .listT (some (.VList pgDumpFireflyRange)) with
    | .error e => .error e
    | .ok _ => .ok [("prefix", .VStr "pg dump"), ("dumpcontents", d)]

/-- The allowed strings of hammer `PlacementGroupCommand.pg_dump_stuck`. -/
def stuckopsAllowed : List String :=
  ["inactive", "unclean", "stale", "undersized", "degraded"]

/-- hammer `PlacementGroupCommand.pg_dump_stuck(stuckops=None,
threshold=None)`: start `cmd = {'prefix': 'pg dump_stuck'}`; if
`stuckops is not None` validate each element with
`CephChoices(strings="inactive|unclean|stale|undersized|degraded")` and
set `cmd['stuckops'] = stuckops`; if `threshold is not None` validate it
with `CephInt(range='')` and set `cmd['threshold'] = threshold`. -/
def pg_dump_stuck (stuckops : Option (List PyVal)) (threshold : Option PyVal) :
    Except PyErr Cmd :=
  let step1 : Except PyErr Cmd :=
    match stuckops with
    | none => .ok [("prefix", .VStr "pg dump_stuck")]
    | some S =>
      match validateEach stuckopsAllowed S with
      | .error e => .error e
      | .ok _ => .ok [("prefix", .VStr "pg dump_stuck"), ("stuckops", .VList S)]
  match step1 with
  | .error e => .error e
  | .ok cmd =>
    match threshold with
    | none => .ok cmd
    | some t =>
      match (CephInt.ofRange "").valid t with
      | .error e => .error e
      | .ok _ => .ok (cmd ++ [("threshold", t)])

/-! ## Dispatcher -/

/-- The three-part reply of `cluster.mon_command`: integer status code,
output buffer, status string. -/
structure MonReply where
  status : Int
  outbuf : String
  outs : String

/-- `CephError(cmd, msg)`: carries the original command object and a
message. -/
structure CephErrorE where
  cmd : Cmd
  msg : String
deriving DecidableEq

/-- Modelled from the spec: `os.strerror` (Python standard library, not
part of this repository) decodes an errno-style code into its standard
message; only the codes exercised below are tabulated. -/
def strerror (n : Nat) : String :=
  if n = 1 then "Operation not permitted"
  else if n = 2 then "No such file or directory"
  else if n = 5 then "Input/output error"
  else if n = 22 then "Invalid argument"
  else "Unknown error " ++ toString n

/-- `run_ceph_command(conffile, cmd, inbuf)` after the reply arrives:
`if result[0] is not 0: raise CephError(cmd=cmd, msg=os.strerror(abs(result[0])))`
else `return result[1], result[2]`.  (For the interned small int `0`,
CPython's `is not 0` is value inequality.)  This function is identical
in the firefly, hammer and infernalis generations. -/
def run_ceph_command (cmd : Cmd) (reply : MonReply) :
    Except CephErrorE (String × String) :=
  if reply.status ≠ 0 then .error ⟨cmd, strerror reply.status.natAbs⟩
  else .ok (reply.outbuf, reply.outs)

/-- The two error kinds a full wrapper call can surface: a local
validation failure, or a `CephError` after dispatch. -/
inductive CallErr where
  | validation : PyErr → CallErr
  | ceph : CephErrorE → CallErr
deriving DecidableEq

/-- A full wrapper call: the build phase runs first, and only when it
succeeds is the command submitted via `run_ceph_command`.  The second
component records the commands actually submitted to the cluster, so
"no network interaction" is the statement that this trace is empty. -/
def callWithTrace (build : Except PyErr Cmd) (reply : MonReply) :
    Except CallErr (String × String) × List Cmd :=
  match build with
  | .error e => (.error (.validation e), [])
  | .ok cmd =>
    match run_ceph_command cmd reply with
    | .error e => (.error (.ceph e), [cmd])
    | .ok r => (.ok r, [cmd])

/-! ## Shared helper lemmas -/

/-- The loop `for s in values: validator.valid(s)` succeeds exactly when
every element is an allowed string; the empty sequence succeeds
vacuously. -/
theorem validateEach_ok_iff (allowed : List String) (S : List PyVal) :
    validateEach allowed S = .ok () ↔
      ∀ v ∈ S, ∃ s, v = PyVal.VStr s ∧ s ∈ allowed := by
  induction S with
  | nil => simp [validateEach]
  | cons v rest ih =>
    cases v with
    | VStr s =>
      by_cases hmem : s ∈ allowed
      · simp [validateEach, CephChoices.valid, hmem, ih]
      · simp [validateEach, CephChoices.valid, hmem]
    | VInt n => simp [validateEach, CephChoices.valid]
    | VFloat q => simp [validateEach, CephChoices.valid]
    | VList l => simp [validateEach, CephChoices.valid]

/-! ## Claim theorems -/

/-- C1 counterexample: the firefly generation of `osd reweight` does not
accept the spec's scenario-A arguments — with `id = 5` (an integer) and
`weight = 0.5` (a float) the build fails immediately, because the source
asserts `isinstance(id, six.string_types)`. -/
theorem osd_reweight_scenarioA_fails_on_firefly :
    osd_reweight_firefly (.VInt 5) (.VFloat (1/2)) =
      .error (.assertionError "5 is not a int") := by decide

/-- C1 (amended): in the hammer generation, `osd reweight` with `id = 5`
and `weight = 0.5` builds `{prefix: "osd reweight", id: 5, weight: 0.5}`,
and with `weight = 1.5` fails with a greater-than-maximum error on the
weight value before any command is built; the firefly generation instead
validates both arguments as strings, so it accepts `id = "5"`,
`weight = "0.5"` and rejects the integer `5`. -/
theorem osd_reweight_scenarios_amended :
    osd_reweight_hammer (.VInt 5) (.VFloat (1/2)) =
      .ok [("prefix", .VStr "osd reweight"), ("id", .VInt 5),
           ("weight", .VFloat (1/2))] ∧
    osd_reweight_hammer (.VInt 5) (.VFloat (3/2)) =
      .error (.argumentValid
        (pyStr (.VFloat (3/2)) ++ " is greater than maximum allowed value")) ∧
    osd_reweight_firefly (.VStr "5") (.VStr "0.5") =
      .ok [("prefix", .VStr "osd reweight"), ("id", .VStr "5"),
           ("weight", .VStr "0.5")] := by
  refine ⟨?_, ?_, by decide⟩
  · norm_num [osd_reweight_hammer, CephInt.valid, CephFloat.valid, toRat?,
      show CephInt.ofRange "0" = ⟨some 0, none⟩ from rfl,
      show CephFloat.ofRange "0|1" = ⟨some 0, some 1⟩ from rfl]
  · norm_num [osd_reweight_hammer, CephInt.valid, CephFloat.valid, toRat?,
      show CephInt.ofRange "0" = ⟨some 0, none⟩ from rfl,
      show CephFloat.ofRange "0|1" = ⟨some 0, some 1⟩ from rfl]

/-- C2 counterexample: hammer `pg dump_stuck` with the empty sequence of
stuck reasons validates successfully and builds a command (the
validation loop body never runs), contradicting the claim that a Many
choice field rejects an empty sequence. -/
theorem pg_dump_stuck_accepts_empty_sequence :
    pg_dump_stuck (some []) none =
      .ok [("prefix", .VStr "pg dump_stuck"), ("stuckops", .VList [])] := by
  decide

/-- C2 (amended): for the loop-based Many choice validation of hammer
`pg dump_stuck`, the build succeeds exactly when every supplied element
is an allowed stuck-reason string — the empty sequence is vacuously
accepted. -/
theorem choiceMany_valid_iff (S : List PyVal) :
    (∃ cmd, pg_dump_stuck (some S) none = .ok cmd) ↔
      ∀ v ∈ S, ∃ s, v = PyVal.VStr s ∧ s ∈ stuckopsAllowed := by
  rw [← validateEach_ok_iff]
  constructor
  · rintro ⟨cmd, hcmd⟩
    by_contra hne
    simp only [pg_dump_stuck] at hcmd
    rcases h : validateEach stuckopsAllowed S with e | u
    · rw [h] at hcmd
      simp at hcmd
    · cases u
      exact hne h
  · intro h
    refine ⟨[("prefix", .VStr "pg dump_stuck"), ("stuckops", .VList S)], ?_⟩
    simp [pg_dump_stuck, h]

/-- C8: validators are pure — `validator` leaves its argument unchanged
(`validator_post` embeds that the source only reads `value`), and
rerunning it on the value left behind gives the same outcome. -/
theorem validator_pure_idempotent (v : PyVal) (t : PyType) (r : Option PyVal) :
    validator_post v t r = v ∧
    validator (validator_post v t r) t r = validator v t r :=
  ⟨rfl, rfl⟩

/-- C8 witness: the purity statement instantiated at a concrete call. -/
theorem validator_pure_idempotent_witness :
    validator_post (.VInt 3) .intT none = .VInt 3 ∧
    validator (validator_post (.VInt 3) .intT none) .intT none =
      validator (.VInt 3) .intT none :=
  validator_pure_idempotent (.VInt 3) .intT none

/-- C2 witness: a singleton allowed stuck-reason builds successfully. -/
theorem choiceMany_valid_iff_witness :
    ∃ cmd, pg_dump_stuck (some [.VStr "stale"]) none = .ok cmd :=
  (choiceMany_valid_iff [.VStr "stale"]).mpr (by simp [stuckopsAllowed])

/-- C3: the dispatcher returns `(outbuf, outs)` unchanged on status 0,
and on a nonzero status raises `CephError` carrying the original command
object and the errno decoding of the status code's absolute value;
errno 2 decodes to "No such file or directory". -/
theorem run_ceph_command_spec (cmd : Cmd) (reply : MonReply) :
    (reply.status = 0 → run_ceph_command cmd reply = .ok (reply.outbuf, reply.outs)) ∧
    (reply.status ≠ 0 →
      run_ceph_command cmd reply = .error ⟨cmd, strerror reply.status.natAbs⟩) ∧
    strerror 2 = "No such file or directory" := by
  refine ⟨fun h => ?_, fun h => ?_, rfl⟩
  · simp [run_ceph_command, h]
  · simp [run_ceph_command, h]

/-- C3 witness: status 0 returns the buffers unchanged; status -2 raises
with the original command and "No such file or directory". -/
theorem run_ceph_command_spec_witness :
    run_ceph_command [("prefix", .VStr "pg stat")] ⟨0, "buf", "ok"⟩ = .ok ("buf", "ok") ∧
    run_ceph_command [("prefix", .VStr "pg stat")] ⟨-2, "", "err"⟩ =
      .error ⟨[("prefix", .VStr "pg stat")], "No such file or directory"⟩ := by
  constructor
  · exact (run_ceph_command_spec _ _).1 rfl
  · rw [(run_ceph_command_spec [("prefix", .VStr "pg stat")] ⟨-2, "", "err"⟩).2.1 (by decide)]
    rfl

/-- C4: when the build phase of `osd reweight` (firefly or hammer) fails
validation, the full call surfaces that validation error and the list of
commands submitted to the cluster is empty — no network interaction, no
partial action. -/
theorem validation_failure_no_submit (id weight : PyVal) (reply : MonReply) (e : PyErr) :
    (osd_reweight_firefly id weight = .error e →
      callWithTrace (osd_reweight_firefly id weight) reply = (.error (.validation e), [])) ∧
    (osd_reweight_hammer id weight = .error e →
      callWithTrace (osd_reweight_hammer id weight) reply = (.error (.validation e), [])) := by
  constructor <;> intro h <;> simp [callWithTrace, h]

/-- C4 witness: the failing firefly call at `id = 5` submits nothing. -/
theorem validation_failure_no_submit_witness :
    callWithTrace (osd_reweight_firefly (.VInt 5) (.VFloat (1/2))) ⟨0, "", ""⟩ =
      (.error (.validation (.assertionError "5 is not a int")), []) :=
  (validation_failure_no_submit (.VInt 5) (.VFloat (1/2)) ⟨0, "", ""⟩
    (.assertionError "5 is not a int")).1 (by decide)

/-- C5: bounded-integer validation — with both bounds declared,
`validator` accepts an integer `n` iff `min ≤ n ≤ max`; with no declared
range any integer is accepted; a non-integer value is always rejected;
and (for the hammer generation's spec-modelled `CephInt`) an absent
bound imposes no constraint on its side. -/
theorem boundedInt_validator_spec :
    (∀ lo hi n : Int,
      validator (.VInt n) .intT (some (.VList [.VInt lo, .VInt hi])) = .ok () ↔
        lo ≤ n ∧ n ≤ hi) ∧
    (∀ n : Int, validator (.VInt n) .intT none = .ok ()) ∧
    (∀ (v : PyVal) (r : Option PyVal), isinstance v .intT = false →
      validator v .intT r ≠ .ok ()) ∧
    (∀ (c : CephInt) (n : Int),
      c.valid (.VInt n) = .ok () ↔
        (∀ lo ∈ c.min, lo ≤ n) ∧ (∀ hi ∈ c.max, n ≤ hi)) := by
  refine ⟨?_, ?_, ?_, ?_⟩
  · intro lo hi n
    by_cases h1 : lo ≤ n <;> by_cases h2 : n ≤ hi <;>
      simp [validator, isinstance, pyGe, pyLe, toRat?, h1, h2]
  · intro n
    simp [validator, isinstance]
  · intro v r hv
    cases r with
    | none => simp [validator, hv]
    | some vr => simp [validator, hv]
  · intro c n
    rcases c with ⟨mi, ma⟩
    cases mi <;> cases ma <;>
      simp [CephInt.valid] <;> split_ifs <;> simp_all

/-- C5 witness: 1 is accepted in [0, 2]; a string is rejected as
non-integral. -/
theorem boundedInt_validator_spec_witness :
    validator (.VInt 1) .intT (some (.VList [.VInt 0, .VInt 2])) = .ok () ∧
    validator (.VStr "x") .intT none ≠ .ok () :=
  ⟨(boundedInt_validator_spec.1 0 2 1).mpr (by decide),
   boundedInt_validator_spec.2.2.1 (.VStr "x") none (by decide)⟩

/-- C6: fail-fast — when both declared fields are invalid, the error
raised is the first declared field's own check error (`caps` before
`entity` in `auth caps`, `id` before `weight` in firefly
`osd reweight`); the second field's check is never reached. -/
theorem failfast_first_field_error (caps entity id weight : PyVal) :
    (isinstance caps .strT = false → isinstance entity .strT = false →
      auth_caps caps entity =
        .error (.assertionError (pyStr caps ++ " is not a String"))) ∧
    (isinstance id .strT = false → isinstance weight .strT = false →
      osd_reweight_firefly id weight =
        .error (.assertionError (pyStr id ++ " is not a int"))) := by
  constructor
  · intro h1 _
    simp [auth_caps, h1]
  · intro h1 _
    simp [osd_reweight_firefly, h1]

/-- C6 witness: two invalid fields; the raised message is the first
field's. -/
theorem failfast_first_field_error_witness :
    auth_caps (.VInt 1) (.VInt 2) = .error (.assertionError "1 is not a String") ∧
    osd_reweight_firefly (.VInt 3) (.VInt 4) = .error (.assertionError "3 is not a int") :=
  ⟨(failfast_first_field_error (.VInt 1) (.VInt 2) (.VInt 3) (.VInt 4)).1 (by decide) (by decide),
   (failfast_first_field_error (.VInt 1) (.VInt 2) (.VInt 3) (.VInt 4)).2 (by decide) (by decide)⟩

/-- C7: omitting an optional field leaves no entry for it in the command
object — `config-key put` without `val` has no `val` key (not null, not
empty), and `pg dump` without `dumpcontents` has no `dumpcontents` key;
prefix and supplied fields are present. -/
theorem optional_field_omitted :
    (∀ key : PyVal, isinstance key .strT = true →
      ∃ cmd, config_key_put key none = .ok cmd ∧
        Cmd.get cmd "val" = none ∧
        Cmd.get cmd "prefix" = some (.VStr "config-key put") ∧
        Cmd.get cmd "key" = some key) ∧
    (∃ cmd, pg_dump none = .ok cmd ∧
      Cmd.get cmd "dumpcontents" = none ∧
      Cmd.get cmd "prefix" = some (.VStr "pg dump")) := by
  constructor
  · intro key hk
    refine ⟨[("prefix", .VStr "config-key put"), ("key", key)], ?_, ?_, ?_, ?_⟩
    · simp [config_key_put, hk]
    · rfl
    · rfl
    · rfl
  · exact ⟨[("prefix", .VStr "pg dump")], rfl, rfl, rfl⟩

/-- C7 witness: `config-key put` with key "mykey" and no value. -/
theorem optional_field_omitted_witness :
    ∃ cmd, config_key_put (.VStr "mykey") none = .ok cmd ∧
      Cmd.get cmd "val" = none ∧
      Cmd.get cmd "prefix" = some (.VStr "config-key put") ∧
      Cmd.get cmd "key" = some (.VStr "mykey") :=
  optional_field_omitted.1 (.VStr "mykey") (by decide)

/-- C9: the firefly and infernalis `osd set` wrappers can never succeed:
a non-list argument fails the isinstance assertion, and every list —
allowed elements included — hits the `ValueError` from the
`[min, max]`-shape check on the non-2-length `valid_range`; consequently
no command is ever submitted. -/
theorem osd_set_choice_list_always_fails (key : PyVal) (reply : MonReply) :
    (isinstance key .listT = false →
      (∃ m, osd_set_firefly key = .error (.assertionError m)) ∧
      (∃ m, osd_set_infernalis key = .error (.assertionError m))) ∧
    (isinstance key .listT = true →
      (∃ m, osd_set_firefly key = .error (.valueError m)) ∧
      (∃ m, osd_set_infernalis key = .error (.valueError m))) ∧
    (callWithTrace (osd_set_firefly key) reply).2 = [] ∧
    (callWithTrace (osd_set_infernalis key) reply).2 = [] := by
  have hf : ∀ m, osd_set_firefly key = .error m →
      (callWithTrace (osd_set_firefly key) reply).2 = [] := by
    intro m h; simp [callWithTrace, h]
  have hi : ∀ m, osd_set_infernalis key = .error m →
      (callWithTrace (osd_set_infernalis key) reply).2 = [] := by
    intro m h; simp [callWithTrace, h]
  cases key with
  | VList l =>
    refine ⟨fun h => by simp [isinstance] at h, fun _ => ⟨⟨_, rfl⟩, ⟨_, rfl⟩⟩, ?_, ?_⟩
    · exact hf _ rfl
    · exact hi _ rfl
  | VInt n =>
    refine ⟨fun _ => ⟨⟨_, rfl⟩, ⟨_, rfl⟩⟩, fun h => by simp [isinstance] at h, ?_, ?_⟩
    · exact hf _ rfl
    · exact hi _ rfl
  | VFloat q =>
    refine ⟨fun _ => ⟨⟨_, rfl⟩, ⟨_, rfl⟩⟩, fun h => by simp [isinstance] at h, ?_, ?_⟩
    · exact hf _ rfl
    · exact hi _ rfl
  | VStr s =>
    refine ⟨fun _ => ⟨⟨_, rfl⟩, ⟨_, rfl⟩⟩, fun h => by simp [isinstance] at h, ?_, ?_⟩
    · exact hf _ rfl
    · exact hi _ rfl

/-- C9 witness: a list of all-allowed elements still fails with
`ValueError`, and nothing is submitted. -/
theorem osd_set_choice_list_always_fails_witness :
    (∃ m, osd_set_firefly (.VList [.VStr "pause"]) = .error (.valueError m)) ∧
    (callWithTrace (osd_set_firefly (.VList [.VStr "pause"])) ⟨0, "", ""⟩).2 = [] :=
  ⟨((osd_set_choice_list_always_fails (.VList [.VStr "pause"]) ⟨0, "", ""⟩).2.1 (by decide)).1,
   (osd_set_choice_list_always_fails (.VList [.VStr "pause"]) ⟨0, "", ""⟩).2.2.1⟩

/-- C10: every command object built by the embedded wrappers — across
the firefly, hammer and infernalis generations — maps 'prefix' to that
operation's fixed canonical name, independently of the caller-supplied
arguments. -/
theorem prefix_always_present :
    Cmd.get pg_stat_cmd "prefix" = some (.VStr "pg stat") ∧
    (∀ key val cmd, config_key_put key val = .ok cmd →
      Cmd.get cmd "prefix" = some (.VStr "config-key put")) ∧
    (∀ id weight cmd, osd_reweight_firefly id weight = .ok cmd →
      Cmd.get cmd "prefix" = some (.VStr "osd reweight")) ∧
    (∀ id weight cmd, osd_reweight_hammer id weight = .ok cmd →
      Cmd.get cmd "prefix" = some (.VStr "osd reweight")) ∧
    (∀ caps entity cmd, auth_caps caps entity = .ok cmd →
      Cmd.get cmd "prefix" = some (.VStr "auth caps")) ∧
    (∀ key cmd, osd_set_firefly key = .ok cmd →
      Cmd.get cmd "prefix" = some (.VStr "osd set")) ∧
    (∀ key cmd, osd_set_infernalis key = .ok cmd →
      Cmd.get cmd "prefix" = some (.VStr "osd set")) ∧
    (∀ key cmd, osd_set_hammer key = .ok cmd →
      Cmd.get cmd "prefix" = some (.VStr "osd set")) ∧
    (∀ d cmd, pg_dump d = .ok cmd →
      Cmd.get cmd "prefix" = some (.VStr "pg dump")) ∧
    (∀ s t cmd, pg_dump_stuck s t = .ok cmd →
      Cmd.get cmd "prefix" = some (.VStr "pg dump_stuck")) := by
  refine ⟨rfl, ?_, ?_, ?_, ?_, ?_, ?_, ?_, ?_, ?_⟩
  · intro key val cmd h
    by_cases hk : isinstance key .strT
    · cases val with
      | none => simp [config_key_put, hk] at h; subst h; rfl
      | some v =>
        by_cases hv : isinstance v .strT
        · simp [config_key_put, hk, hv] at h; subst h; rfl
        · simp [config_key_put, hk, hv] at h
    · simp [config_key_put, hk] at h
  · intro id weight cmd h
    by_cases h1 : isinstance id .strT
    · by_cases h2 : isinstance weight .strT
      · simp [osd_reweight_firefly, h1, h2] at h; subst h; rfl
      · simp [osd_reweight_firefly, h1, h2] at h
    · simp [osd_reweight_firefly, h1] at h
  · intro id weight cmd h
    simp only [osd_reweight_hammer] at h
    rcases hv1 : (CephInt.ofRange "0").valid id with e | u
    · rw [hv1] at h; simp at h
    · rw [hv1] at h
      rcases hv2 : (CephFloat.ofRange "0|1").valid weight with e | u
      · rw [hv2] at h; simp at h
      · rw [hv2] at h; simp at h; subst h; rfl
  · intro caps entity cmd h
    by_cases h1 : isinstance caps .strT
    · by_cases h2 : isinstance entity .strT
      · simp [auth_caps, h1, h2] at h; subst h; rfl
      · simp [auth_caps, h1, h2] at h
    · simp [auth_caps, h1] at h
  · intro key cmd h
    simp only [osd_set_firefly] at h
    rcases hv : validator key .listT (some (.VList osdSetFireflyRange)) with e | u
    · rw [hv] at h; simp at h
    · rw [hv] at h; simp at h; subst h; rfl
  · intro key cmd h
    simp only [osd_set_infernalis] at h
    rcases hv : validator key .listT (some (.VList osdSetInfernalisRange)) with e | u
    · rw [hv] at h; simp at h
    · rw [hv] at h; simp at h; subst h; rfl
  · intro key cmd h
    simp only [osd_set_hammer] at h
    rcases hv : validateEach osdSetHammerAllowed key with e | u
    · rw [hv] at h; simp at h
    · rw [hv] at h; simp at h; subst h; rfl
  · intro d cmd h
    cases d with
    | none => simp [pg_dump] at h; subst h; rfl
    | some dv =>
      simp only [pg_dump] at h
      rcases hv : validator dv .listT (some (.VList pgDumpFireflyRange)) with e | u
      · rw [hv] at h; simp at h
      · rw [hv] at h; simp at h; subst h; rfl
  · intro s t cmd h
    cases s with
    | none =>
      cases t with
      | none => simp [pg_dump_stuck] at h; subst h; rfl
      | some tv =>
        simp only [pg_dump_stuck] at h
        rcases hv : (CephInt.ofRange "").valid tv with e | u <;> simp [hv] at h
        subst h; rfl
    | some S =>
      simp only [pg_dump_stuck] at h
      rcases hS : validateEach stuckopsAllowed S with e | u <;> simp [hS] at h
      cases t with
      | none => simp at h; subst h; rfl
      | some tv =>
        rcases hv : (CephInt.ofRange "").valid tv with e | u <;> simp [hv] at h
        subst h; rfl

/-- C10 witness: a successful `config-key put` build carries its fixed
prefix. -/
theorem prefix_always_present_witness :
    ∃ cmd, config_key_put (.VStr "k") none = .ok cmd ∧
      Cmd.get cmd "prefix" = some (.VStr "config-key put") :=
  ⟨[("prefix", .VStr "config-key put"), ("key", .VStr "k")], by decide,
   prefix_always_present.2.1 (.VStr "k") none _ (by decide)⟩

end CephApi
